import Mathlib

/-!
Verification development for the transparent logging reverse proxy
(src/proxy/proxy.py). The Python handler is shallowly embedded below:

* Request bodies and relayed chunks are byte sequences (`Bytes`).
* `json.loads` and `bytes.decode("utf-8", errors="replace")` are library
  collaborators, so they enter as function parameters (`Bytes → Option Json`,
  `String → Option Json`, `Bytes → String`); `none` models a
  `json.JSONDecodeError`.
* Python runtime errors raised by the handler body are modelled explicitly
  by `PyExc`; the `except (json.JSONDecodeError, AttributeError)` clauses of
  the source catch exactly those two constructors, while `TypeError` and
  `KeyError` propagate, as in CPython.
* Observable behaviour is a list of events: structured log lines, writes to
  the live output stream (`sys.stdout.write` and the trailing `print()`),
  and chunks relayed to the client (`yield` / the buffered response body).

Each observable string is produced exactly the way the source builds it
(f-strings, `str()` of parsed values, slicing and `replace`).
-/

abbrev Bytes := List Nat

/-- Terminal color escape used by `log` for request-side lines. -/
def CYAN : String := "\x1b[96m"

/-- Terminal color escape used by `log` for response-side lines. -/
def GREEN : String := "\x1b[92m"

/-- Terminal color escape used by `log` for the STREAM line. -/
def YELLOW : String := "\x1b[93m"

/-- Terminal color escape used by `log` for ERROR lines. -/
def RED : String := "\x1b[91m"

/-- Terminal color escape used by `log` for dim lines (BODY, roles). -/
def DIM : String := "\x1b[2m"

/-- One structured log line: `log(color, label, message)` in the source.
The timestamp prefix and the 10-character right alignment applied by `log`
are presentation only and are not part of the event. -/
structure LogLine where
  color : String
  label : String
  message : String
deriving DecidableEq, Repr

/-- An observable effect of the response path. -/
inductive Event where
  | log (l : LogLine)
  | live (s : String)
  | relay (c : Bytes)
deriving DecidableEq, Repr

/-- The Python exceptions that can arise in the handler body. -/
inductive PyExc where
  | jsonDecodeError
  | attributeError
  | typeError
  | keyError
deriving DecidableEq, Repr

/-- Parsed JSON documents, as returned by `json.loads`: numbers restricted
to integers (the only numbers the proxy ever manipulates), objects as
key/value lists in insertion order (`json.loads` yields unique keys). -/
inductive Json where
  | null
  | bool (b : Bool)
  | num (n : Int)
  | str (s : String)
  | arr (xs : List Json)
  | obj (fields : List (String × Json))

/- ---------------------------------------------------------------------
String helpers mirroring the exact Python string operations used by the
source. They operate on the code-point list of the string, matching
Python semantics of slicing, `len`, `lower`, `strip`, `split`,
`startswith` and substring membership for the data the proxy handles.
--------------------------------------------------------------------- -/

/-- Python slicing `s[:n]`. -/
def strTake (s : String) (n : Nat) : String := String.mk (s.toList.take n)

/-- Python slicing `s[n:]`. -/
def strDrop (s : String) (n : Nat) : String := String.mk (s.toList.drop n)

/-- Python `len(s)` (code points). -/
def strLen (s : String) : Nat := s.toList.length

/-- Python `s.lower()` (ASCII range, which covers header names). -/
def strLower (s : String) : String := String.mk (s.toList.map Char.toLower)

/-- Python `s.replace("\n", " ")`: the one-character replacement used for
log previews. -/
def replaceNl (s : String) : String :=
  String.mk (s.toList.map fun c => if c == '\n' then ' ' else c)

/-- Python `s.startswith(p)`. -/
def strStartsWith (s p : String) : Bool :=
  s.toList.take p.toList.length == p.toList

/-- Python substring membership `needle in hay`. -/
def strContains (needle hay : String) : Bool :=
  (List.range (hay.toList.length + 1)).any fun i =>
    (hay.toList.drop i).take needle.toList.length == needle.toList

/-- Python whitespace for `str.strip` (ASCII subset, which covers the
event-stream framing the proxy strips). -/
def isPySpace (c : Char) : Bool :=
  c == ' ' || c == '\t' || c == '\n' || c == '\r' ||
  c == Char.ofNat 11 || c == Char.ofNat 12

/-- Python `s.strip()`. -/
def pyStrip (s : String) : String :=
  String.mk (((s.toList.dropWhile isPySpace).reverse.dropWhile isPySpace).reverse)

def splitCharAux (sep : Char) : List Char → List Char → List String
  | [], acc => [String.mk acc.reverse]
  | c :: cs, acc =>
    if c == sep then String.mk acc.reverse :: splitCharAux sep cs []
    else splitCharAux sep cs (c :: acc)

/-- Python `s.split(sep)` for a one-character separator (the source splits
on `"\n"`). In particular the empty string splits to `[""]`. -/
def splitChar (sep : Char) (s : String) : List String := splitCharAux sep s.toList []

/-- Python `sep.join(parts)`. -/
def joinSep (sep : String) : List String → String
  | [] => ""
  | [s] => s
  | s :: ss => s ++ sep ++ joinSep sep ss

/-- Byte encoding of an ASCII string; used to build concrete byte bodies
and chunks for the scenario inputs. -/
def asciiBytes (s : String) : Bytes := s.toList.map Char.toNat

/-- A concrete instance of `bytes.decode("utf-8", errors="replace")`,
valid on ASCII input: one code point per byte. The general decoder enters
the embedding as a parameter; this one instantiates it for the scenario
chunks, which are all ASCII. -/
def asciiDecode (b : Bytes) : String := String.mk (b.map Char.ofNat)

/-- Concatenation of the upstream chunk sequence: `await upstream.aread()`
buffers exactly these bytes. -/
def joinChunks : List Bytes → Bytes
  | [] => []
  | c :: cs => c ++ joinChunks cs

/- ---------------------------------------------------------------------
The exact message strings the source formats.
--------------------------------------------------------------------- -/

/-- Message of the REQUEST line: `f"{request.method} /{path}"`. -/
def requestLine (m p : String) : String := s!"{m} /{p}"

/-- Message of the BODY fallback line: `f"{len(body)} bytes (not JSON)"`. -/
def bodyFallbackMsg (n : Nat) : String := s!"{n} bytes (not JSON)"

/-- Message of the MESSAGES line: `f"{len(msgs)} message(s)"`. -/
def messagesMsg (n : Nat) : String := s!"{n} message(s)"

/-- Preview for non-string message content: `f"[{len(content)} content blocks]"`. -/
def contentBlocksMsg (n : Nat) : String := s!"[{n} content blocks]"

/-- Message of the streaming RESPONSE line: `f"{upstream.status_code} (streaming)"`. -/
def respStreamingMsg (st : Nat) : String := s!"{st} (streaming)"

/-- Message of the buffered RESPONSE line:
`f"{upstream.status_code} ({len(response_body)} bytes)"`. -/
def respBufferedMsg (st n : Nat) : String := s!"{st} ({n} bytes)"

/- ---------------------------------------------------------------------
Python value semantics on parsed JSON documents.
--------------------------------------------------------------------- -/

/- Python `repr` of a parsed JSON value (quotes around strings, `None`,
`True`, `False`; containers render their elements by `repr`). Escape
sequences inside strings are not reproduced; the proxy only ever renders
plain model identifiers and role names. -/
mutual
def Json.pyRepr : Json → String
  | .null => "None"
  | .bool true => "True"
  | .bool false => "False"
  | .num n => toString n
  | .str s => String.singleton (Char.ofNat 39) ++ s ++ String.singleton (Char.ofNat 39)
  | .arr xs => "[" ++ joinSep ", " (Json.pyReprList xs) ++ "]"
  | .obj fs => "\x7b" ++ joinSep ", " (Json.pyReprFields fs) ++ "\x7d"
def Json.pyReprList : List Json → List String
  | [] => []
  | j :: js => Json.pyRepr j :: Json.pyReprList js
def Json.pyReprFields : List (String × Json) → List String
  | [] => []
  | (k, v) :: fs =>
    (String.singleton (Char.ofNat 39) ++ k ++ String.singleton (Char.ofNat 39) ++ ": " ++ Json.pyRepr v)
      :: Json.pyReprFields fs
end

/-- Python `str` of a parsed JSON value, as interpolated into a log
message: strings render verbatim, everything else as its `repr`. -/
def Json.pyStr : Json → String
  | .str s => s
  | j => j.pyRepr

/-- Minimal JSON string escaping for `json.dumps` (the ERROR line). -/
def jsonEscape (s : String) : String :=
  String.mk (s.toList.flatMap fun c =>
    if c == '\\' then ['\\', '\\']
    else if c == '"' then ['\\', '"']
    else if c == '\n' then ['\\', 'n']
    else if c == '\r' then ['\\', 'r']
    else if c == '\t' then ['\\', 't']
    else [c])

/- Python `json.dumps` with its default separators, used by the source
for the ERROR log line. -/
mutual
def Json.dumps : Json → String
  | .null => "null"
  | .bool true => "true"
  | .bool false => "false"
  | .num n => toString n
  | .str s => "\"" ++ jsonEscape s ++ "\""
  | .arr xs => "[" ++ joinSep ", " (Json.dumpsList xs) ++ "]"
  | .obj fs => "\x7b" ++ joinSep ", " (Json.dumpsFields fs) ++ "\x7d"
def Json.dumpsList : List Json → List String
  | [] => []
  | j :: js => Json.dumps j :: Json.dumpsList js
def Json.dumpsFields : List (String × Json) → List String
  | [] => []
  | (k, v) :: fs => ("\"" ++ jsonEscape k ++ "\": " ++ Json.dumps v) :: Json.dumpsFields fs
end

/-- Dictionary lookup with default: `fields.get(k, d)` on the association
list of an object. -/
def lookupD (fs : List (String × Json)) (k : String) (d : Json) : Json :=
  match fs.find? (fun kv => kv.1 == k) with
  | some kv => kv.2
  | none => d

/-- Total `get` on a parsed value, used by the spec-side rendering of a
message preview (the source reaches it only on objects). -/
def jsonGetD (j : Json) (k : String) (d : Json) : Json :=
  match j with
  | .obj fs => lookupD fs k d
  | _ => d

/-- Python `parsed.get(k, d)`: objects look the key up, every other value
has no `get` attribute and raises `AttributeError`. -/
def pyGetD (j : Json) (k : String) (d : Json) : Except PyExc Json :=
  match j with
  | .obj fs => .ok (lookupD fs k d)
  | _ => .error .attributeError

/-- Python `k in parsed` for a dict operand (the source only evaluates it
after a successful `.get`, hence on an object). -/
def objHasKey (j : Json) (k : String) : Bool :=
  match j with
  | .obj fs => (fs.find? (fun kv => kv.1 == k)).isSome
  | _ => false

/-- `parsed[k]` on an object whose key is known present (with `.null` as
unreachable fallback). -/
def objIndexD (j : Json) (k : String) : Json :=
  match j with
  | .obj fs => lookupD fs k .null
  | _ => .null

/-- Python subscript `value[k]` with a string key: dicts look up (missing
key raises `KeyError`), every other value raises `TypeError`. -/
def pySubscript (j : Json) (k : String) : Except PyExc Json :=
  match j with
  | .obj fs =>
    match fs.find? (fun kv => kv.1 == k) with
    | some kv => .ok kv.2
    | none => .error .keyError
  | _ => .error .typeError

/-- Python equality test of a parsed value against a string literal
(`block.get("type") == "text"` and list membership tests): only an equal
string compares equal. -/
def eqStrJson (needle : String) : Json → Bool
  | .str s => s == needle
  | _ => false

/-- Python membership `needle in data` for a parsed value: key membership
on dicts, element equality on lists, substring on strings, `TypeError`
otherwise (for example `"delta" in 5`). -/
def pyIn (needle : String) (j : Json) : Except PyExc Bool :=
  match j with
  | .obj fs => .ok (fs.any (fun kv => kv.1 == needle))
  | .arr xs => .ok (xs.any (eqStrJson needle))
  | .str s => .ok (strContains needle s)
  | _ => .error .typeError

/-- Python iteration `for block in value`: lists yield elements, strings
yield one-character strings, dicts yield their keys, anything else raises
`TypeError`. -/
def pyIter (j : Json) : Except PyExc (List Json) :=
  match j with
  | .arr xs => .ok xs
  | .str s => .ok (s.toList.map fun c => Json.str (String.singleton c))
  | .obj fs => .ok (fs.map fun kv => Json.str kv.1)
  | _ => .error .typeError

/-- Python `len(value)`: defined on lists, dicts and strings, `TypeError`
otherwise (for example `len(5)`). -/
def pyLen (j : Json) : Except PyExc Nat :=
  match j with
  | .arr xs => .ok xs.length
  | .obj fs => .ok fs.length
  | .str s => .ok (strLen s)
  | _ => .error .typeError

/-- Python slice `msgs[-3:]`: lists and strings slice, dicts and scalars
raise `TypeError` (a slice is not a hashable dict key). -/
def pyLast3 (j : Json) : Except PyExc (List Json) :=
  match j with
  | .arr xs => .ok (xs.drop (xs.length - 3))
  | .str s =>
    .ok (((s.toList).drop (s.toList.length - 3)).map fun c => Json.str (String.singleton c))
  | _ => .error .typeError

/-- Python truthiness of a parsed value (`if parsed.get("stream"):`). -/
def Json.truthy : Json → Bool
  | .null => false
  | .bool b => b
  | .num n => !(n == 0)
  | .str s => !(s == "")
  | .arr xs => !xs.isEmpty
  | .obj fs => !fs.isEmpty

/-- Whether a parsed value is a dict. -/
def Json.isObj : Json → Bool
  | .obj _ => true
  | _ => false

/- ---------------------------------------------------------------------
Observer, request side (proxy.py lines 44-63).
--------------------------------------------------------------------- -/

/-- Body of the per-message loop (lines 52-59): each iteration reads the
role, reads the content, renders the preview (which can raise before the
line is logged) and logs one line colored `DIM`, labelled by `str(role)`. -/
def contentPreview (content : Json) : Except PyExc String :=
  match content with
  | .str s => .ok (replaceNl (strTake s 120))
  | .arr xs => .ok (contentBlocksMsg xs.length)
  | .obj fs => .ok (contentBlocksMsg fs.length)
  | _ => .error .typeError

def msgsLoop : List Json → List LogLine × Option PyExc
  | [] => ([], none)
  | m :: ms =>
    match pyGetD m "role" (Json.str "?") with
    | .error e => ([], some e)
    | .ok role =>
      match pyGetD m "content" (Json.str "") with
      | .error e => ([], some e)
      | .ok content =>
        match contentPreview content with
        | .error e => ([], some e)
        | .ok preview =>
          let (ls, e2) := msgsLoop ms
          (LogLine.mk DIM role.pyStr preview :: ls, e2)

/-- Lines 49-59: `if "messages" in parsed: ...`. The MESSAGES count line
is formatted (evaluating `len(msgs)`, which can raise) before it is
logged, and the slice `msgs[-3:]` is taken before the loop runs. -/
def messagesSection (parsed : Json) : List LogLine × Option PyExc :=
  if objHasKey parsed "messages" then
    let msgs := objIndexD parsed "messages"
    match pyLen msgs with
    | .error e => ([], some e)
    | .ok n =>
      match pyLast3 msgs with
      | .error e => ([LogLine.mk CYAN "MESSAGES" (messagesMsg n)], some e)
      | .ok last3 =>
        let (ls, e2) := msgsLoop last3
        (LogLine.mk CYAN "MESSAGES" (messagesMsg n) :: ls, e2)
  else ([], none)

/-- Lines 60-61: `if parsed.get("stream"): log(YELLOW, "STREAM", "enabled")`. -/
def streamSection (parsed : Json) : List LogLine :=
  if (jsonGetD parsed "stream" Json.null).truthy then
    [LogLine.mk YELLOW "STREAM" "enabled"]
  else []

/-- The `try` block of lines 45-61: parse, MODEL line, messages section,
stream flag. A raised exception carries the lines already printed. -/
def requestTry (jlB : Bytes → Option Json) (body : Bytes) : List LogLine × Option PyExc :=
  match jlB body with
  | none => ([], some PyExc.jsonDecodeError)
  | some parsed =>
    match pyGetD parsed "model" (Json.str "?") with
    | .error e => ([], some e)
    | .ok model =>
      match messagesSection parsed with
      | (ls, some e) => (LogLine.mk CYAN "MODEL" model.pyStr :: ls, some e)
      | (ls, none) =>
        (LogLine.mk CYAN "MODEL" model.pyStr :: (ls ++ streamSection parsed), none)

/-- The exception classes named by both `except (json.JSONDecodeError,
AttributeError)` clauses of the source. -/
def caughtByExceptClause : Option PyExc → Bool
  | some PyExc.jsonDecodeError => true
  | some PyExc.attributeError => true
  | _ => false

/-- Lines 44-63: the request-side body logging, including the guard
`if LOG_BODIES and body:` and the `except` clause that turns a parse
failure or `AttributeError` into the single BODY fallback line. Any other
exception propagates out of the handler. -/
def requestBodySection (jlB : Bytes → Option Json) (lb : Bool) (body : Bytes) :
    List LogLine × Option PyExc :=
  if lb && !body.isEmpty then
    let r := requestTry jlB body
    if caughtByExceptClause r.2 then
      (r.1 ++ [LogLine.mk DIM "BODY" (bodyFallbackMsg body.length)], none)
    else r
  else ([], none)

/-- Lines 42-63: the REQUEST line followed by the body section. -/
def requestPhase (jlB : Bytes → Option Json) (lb : Bool) (method path : String) (body : Bytes) :
    List LogLine × Option PyExc :=
  let r := requestBodySection jlB lb body
  (LogLine.mk CYAN "REQUEST" (requestLine method path) :: r.1, r.2)

/- ---------------------------------------------------------------------
Forwarder (proxy.py lines 36-80).
--------------------------------------------------------------------- -/

/-- An inbound request as handed to the handler by the framework: the
header mapping is the item list of `request.headers`. -/
structure InboundRequest where
  method : String
  path : String
  headers : List (String × String)
  body : Bytes
deriving DecidableEq, Repr

/-- The upstream call built by lines 71-80. -/
structure SentRequest where
  method : String
  url : String
  headers : List (String × String)
  content : Bytes
deriving DecidableEq, Repr

/-- The filter of the header comprehension (line 68):
`k.lower() not in ("host", "transfer-encoding")`. -/
def keepHeader (kv : String × String) : Bool :=
  !(strLower kv.1 == "host" || strLower kv.1 == "transfer-encoding")

/-- CPython dict assignment `d[k] = v` on an insertion-ordered dict:
an existing key keeps its position and is overwritten, a new key is
appended. -/
def pyDictUpdate (d : List (String × String)) (k v : String) : List (String × String) :=
  if d.any (fun kv => kv.1 == k) then
    d.map (fun kv => if kv.1 == k then (k, v) else kv)
  else d ++ [(k, v)]

/-- A Python dict comprehension over a pair sequence with a filter:
items are inserted in order, later duplicates winning. -/
def dictFold (keep : String × String → Bool) (items : List (String × String)) :
    List (String × String) :=
  items.foldl (fun d kv => if keep kv then pyDictUpdate d kv.1 kv.2 else d) []

/-- Lines 66-69: the header mapping sent upstream,
`{k: v for k, v in request.headers.items() if k.lower() not in ("host", "transfer-encoding")}`. -/
def forwardHeaders (items : List (String × String)) : List (String × String) :=
  dictFold keepHeader items

/-- `dict(mapping_items)`: the comprehension with no filter, as applied to
the upstream response headers on both response branches. -/
def pyDict (items : List (String × String)) : List (String × String) :=
  dictFold (fun _ => true) items

/-- Lines 39 and 71-78: the request sent upstream — same method, URL
`f"{OLLAMA_HOST}/{path}"`, sanitized headers, the raw body as content. -/
def buildUpstreamRequest (host : String) (req : InboundRequest) : SentRequest :=
  { method := req.method
    url := host ++ "/" ++ req.path
    headers := forwardHeaders req.headers
    content := req.body }

/- ---------------------------------------------------------------------
Response path (proxy.py lines 82-136).
--------------------------------------------------------------------- -/

/-- An upstream response as produced by the streamed `client.send`: the
status code, the header item list, and the byte chunks `aiter_bytes`
would yield (whose concatenation `aread` would buffer). -/
structure UpstreamResponse where
  status : Nat
  headers : List (String × String)
  chunks : List Bytes
deriving DecidableEq, Repr

/-- `upstream.headers.get(k, d)`: the httpx lookup is case-insensitive
and joins duplicate keys with a comma. -/
def headerGet (hs : List (String × String)) (k : String) (d : String) : String :=
  let vs := (hs.filter fun kv => strLower kv.1 == strLower k).map Prod.snd
  if vs.isEmpty then d else joinSep ", " vs

/-- Line 83: `content_type = upstream.headers.get("content-type", "")`. -/
def contentTypeOf (u : UpstreamResponse) : String :=
  headerGet u.headers "content-type" ""

/-- Line 84: `is_streaming = "text/event-stream" in content_type`. -/
def isStreaming (u : UpstreamResponse) : Bool :=
  strContains "text/event-stream" (contentTypeOf u)

/-- Lines 94-104: handling of one decoded line inside the chunk loop.
Returns the texts written to stdout. Only `json.JSONDecodeError` is
caught; a parsed value of the wrong shape raises (`TypeError`) out of the
generator. -/
def lineWrites (jlS : String → Option Json) (line : String) : List String × Option PyExc :=
  if strStartsWith line "data: " && !(line == "data: [DONE]") then
    match jlS (strDrop line 6) with
    | none => ([], none)
    | some data =>
      match pyIn "delta" data with
      | .error e => ([], some e)
      | .ok false => ([], none)
      | .ok true =>
        match pySubscript data "delta" with
        | .error e => ([], some e)
        | .ok delta =>
          match pyIn "text" delta with
          | .error e => ([], some e)
          | .ok false => ([], none)
          | .ok true =>
            match pySubscript delta "text" with
            | .error e => ([], some e)
            | .ok t =>
              match t with
              | .str s => ([s], none)
              | _ => ([], some .typeError)
  else ([], none)

def linesWrites (jlS : String → Option Json) : List String → List String × Option PyExc
  | [] => ([], none)
  | l :: ls =>
    match lineWrites jlS l with
    | (ws, some e) => (ws, some e)
    | (ws, none) =>
      let r := linesWrites jlS ls
      (ws ++ r.1, r.2)

/-- Lines 90-105: one iteration of `async for chunk in upstream.aiter_bytes()`:
decode, strip, split into lines, extract deltas, then `yield chunk`. An
exception while extracting prevents the yield. -/
def chunkEvents (jlS : String → Option Json) (decode : Bytes → String) (lb : Bool)
    (chunk : Bytes) : List Event × Option PyExc :=
  if lb then
    let r := linesWrites jlS (splitChar '\n' (pyStrip (decode chunk)))
    match r.2 with
    | some e => (r.1.map Event.live, some e)
    | none => (r.1.map Event.live ++ [Event.relay chunk], none)
  else ([Event.relay chunk], none)

def chunksEvents (jlS : String → Option Json) (decode : Bytes → String) (lb : Bool) :
    List Bytes → List Event × Option PyExc
  | [] => ([], none)
  | c :: cs =>
    match chunkEvents jlS decode lb c with
    | (evs, some e) => (evs, some e)
    | (evs, none) =>
      let r := chunksEvents jlS decode lb cs
      (evs ++ r.1, r.2)

/-- Lines 89-108: the `stream_and_log` generator — the chunk loop followed
(when the loop completes and `LOG_BODIES` is set) by the unconditional
trailing `print()` newline and the DONE log line. -/
def streamAndLog (jlS : String → Option Json) (decode : Bytes → String) (lb : Bool)
    (chunks : List Bytes) : List Event × Option PyExc :=
  let r := chunksEvents jlS decode lb chunks
  match r.2 with
  | some e => (r.1, some e)
  | none =>
    if lb then
      (r.1 ++ [Event.live "\n", Event.log (LogLine.mk GREEN "DONE" "stream complete")], none)
    else r

/-- Lines 122-128: the `try` body of the buffered branch — the TEXT lines
of the content blocks, or the ERROR line. -/
def blocksLoop : List Json → List LogLine × Option PyExc
  | [] => ([], none)
  | b :: bs =>
    match pyGetD b "type" Json.null with
    | .error e => ([], some e)
    | .ok t =>
      if eqStrJson "text" t then
        match pySubscript b "text" with
        | .error e => ([], some e)
        | .ok tv =>
          match tv with
          | .str s =>
            let r := blocksLoop bs
            (LogLine.mk GREEN "TEXT" (replaceNl (strTake s 200)) :: r.1, r.2)
          | .arr xs =>
            -- a list slices but has no `.replace`: AttributeError
            let _ := xs; ([], some .attributeError)
          | _ => ([], some .typeError)
      else
        let r := blocksLoop bs
        r

def bufferedTry (parsed : Json) : List LogLine × Option PyExc :=
  match pyIn "content" parsed with
  | .error e => ([], some e)
  | .ok true =>
    match pySubscript parsed "content" with
    | .error e => ([], some e)
    | .ok content =>
      match pyIter content with
      | .error e => ([], some e)
      | .ok blocks => blocksLoop blocks
  | .ok false =>
    match pyIn "error" parsed with
    | .error e => ([], some e)
    | .ok true =>
      match pySubscript parsed "error" with
      | .error e => ([], some e)
      | .ok err => ([LogLine.mk RED "ERROR" err.dumps], none)
    | .ok false => ([], none)

/-- Lines 119-130: the buffered body logging under its guard and its
`except (json.JSONDecodeError, AttributeError): pass`. -/
def bufferedSection (jlB : Bytes → Option Json) (lb : Bool) (body : Bytes) :
    List LogLine × Option PyExc :=
  if lb && !body.isEmpty then
    match jlB body with
    | none => ([], none)
    | some parsed =>
      let r := bufferedTry parsed
      if caughtByExceptClause r.2 then (r.1, none) else r
  else ([], none)

/-- The outcome of the response path: the event trace, and the status and
header mapping of the `StreamingResponse` handed back to the framework
(`none` when an exception escapes before the handler returns). -/
structure ProxyResult where
  events : List Event
  sentStatus : Option Nat
  sentHeaders : Option (List (String × String))
  exc : Option PyExc
deriving DecidableEq, Repr

/-- Lines 82-136: dispatch on `is_streaming`.

Streaming: the RESPONSE log, then the response is returned at once (its
status and `dict(upstream.headers)` reach the client even if the
generator later raises) and the generator trace follows.

Buffered: the whole body is read first, the RESPONSE log shows its byte
count, the body section logs run, and only then is the response with the
single buffered chunk returned — an uncaught exception in between leaves
no response. -/
def proxyRespond (jlS : String → Option Json) (jlB : Bytes → Option Json)
    (decode : Bytes → String) (lb : Bool) (u : UpstreamResponse) : ProxyResult :=
  if isStreaming u then
    let se := streamAndLog jlS decode lb u.chunks
    { events := Event.log (LogLine.mk GREEN "RESPONSE" (respStreamingMsg u.status)) :: se.1
      sentStatus := some u.status
      sentHeaders := some (pyDict u.headers)
      exc := se.2 }
  else
    let body := joinChunks u.chunks
    let be := bufferedSection jlB lb body
    match be.2 with
    | some e =>
      { events := Event.log (LogLine.mk GREEN "RESPONSE" (respBufferedMsg u.status body.length))
          :: be.1.map Event.log
        sentStatus := none
        sentHeaders := none
        exc := some e }
    | none =>
      { events := Event.log (LogLine.mk GREEN "RESPONSE" (respBufferedMsg u.status body.length))
          :: (be.1.map Event.log ++ [Event.relay body])
        sentStatus := some u.status
        sentHeaders := some (pyDict u.headers)
        exc := none }

/-- The chunks relayed to the client, read off an event trace. -/
def relaysOf : List Event → List Bytes
  | [] => []
  | Event.relay c :: evs => c :: relaysOf evs
  | Event.log _ :: evs => relaysOf evs
  | Event.live _ :: evs => relaysOf evs

/-- The raw writes to the live output stream, read off an event trace. -/
def livesOf : List Event → List String
  | [] => []
  | Event.live s :: evs => s :: livesOf evs
  | Event.log _ :: evs => livesOf evs
  | Event.relay _ :: evs => livesOf evs

/- ---------------------------------------------------------------------
Spec-side rendering of a message preview line (claim C8 wording), to be
compared with the loop translated from the source.
--------------------------------------------------------------------- -/

/-- Preview of a message content as the spec describes it: a string is
truncated to its first 120 characters with newlines replaced by spaces, a
non-string yields `[<N> content blocks]` with N its element count. -/
def specContentPreview (content : Json) : String :=
  match content with
  | .str s => replaceNl (strTake s 120)
  | .arr xs => contentBlocksMsg xs.length
  | .obj fs => contentBlocksMsg fs.length
  | _ => ""

/-- One preview line as the spec describes it: labelled by the role field
(default `?`), with the content preview (content defaults to the empty
string). -/
def specMessageLine (m : Json) : LogLine :=
  LogLine.mk DIM (jsonGetD m "role" (Json.str "?")).pyStr
    (specContentPreview (jsonGetD m "content" (Json.str "")))

/-- The message shapes on which the per-message loop completes: an object
whose content (after the `.get` default) is a string, a list or a dict. -/
def msgOk (m : Json) : Bool :=
  match m with
  | .obj fs =>
    match lookupD fs "content" (Json.str "") with
    | .str _ => true
    | .arr _ => true
    | .obj _ => true
    | _ => false
  | _ => false

/- ---------------------------------------------------------------------
Concrete scenario data. The `jl` functions are concrete stand-ins for
`json.loads`, mapping exactly the texts of the scenario to their parses.
--------------------------------------------------------------------- -/

/-- First upstream chunk of the streaming scenario. -/
def c5chunk1 : Bytes := asciiBytes "data: \x7b\"delta\":\x7b\"text\":\"Hel\"\x7d\x7d\n"

/-- Second upstream chunk of the streaming scenario. -/
def c5chunk2 : Bytes := asciiBytes "data: \x7b\"delta\":\x7b\"text\":\"lo\"\x7d\x7d\n"

/-- Final upstream chunk of the streaming scenario. -/
def c5chunk3 : Bytes := asciiBytes "data: [DONE]\n"

/-- `json.loads` on the two delta payloads of the streaming scenario. -/
def c5jl : String → Option Json := fun s =>
  if s == "\x7b\"delta\":\x7b\"text\":\"Hel\"\x7d\x7d" then
    some (Json.obj [("delta", Json.obj [("text", Json.str "Hel")])])
  else if s == "\x7b\"delta\":\x7b\"text\":\"lo\"\x7d\x7d" then
    some (Json.obj [("delta", Json.obj [("text", Json.str "lo")])])
  else none

/-- The event-stream upstream response of the streaming scenario. -/
def c5upstream : UpstreamResponse :=
  { status := 200
    headers := [("content-type", "text/event-stream")]
    chunks := [c5chunk1, c5chunk2, c5chunk3] }

/-- Body text of the buffered scenario. -/
def c7bodyStr : String := "\x7b\"content\":[\x7b\"type\":\"text\",\"text\":\"Hi there\"\x7d]\x7d"

/-- Parse of the buffered scenario body. -/
def c7json : Json :=
  Json.obj [("content", Json.arr [Json.obj [("type", Json.str "text"), ("text", Json.str "Hi there")]])]

/-- `json.loads` on the buffered scenario body. -/
def c7jlB : Bytes → Option Json := fun b =>
  if b == asciiBytes c7bodyStr then some c7json else none

/-- The buffered upstream response of the buffered scenario. -/
def c7upstream : UpstreamResponse :=
  { status := 200
    headers := [("content-type", "application/json")]
    chunks := [asciiBytes c7bodyStr] }

/-- The valid JSON request body refuting the never-raises part of C2. -/
def c2xBody : Bytes := asciiBytes "\x7b\"messages\": 5\x7d"

/-- `json.loads` on that body: an object whose `messages` field is the
number 5. -/
def c2xJl : Bytes → Option Json := fun b =>
  if b == c2xBody then some (Json.obj [("messages", Json.num 5)]) else none

/-- The request body whose `messages` field is a sequence with a
non-object entry, refuting C8 as stated. -/
def c8xBody : Bytes := asciiBytes "\x7b\"messages\":[5]\x7d"

/-- `json.loads` on that body. -/
def c8xJl : Bytes → Option Json := fun b =>
  if b == c8xBody then some (Json.obj [("messages", Json.arr [Json.num 5])]) else none

/-- A stream chunk whose data line parses to a number, refuting C6 as
stated: `"delta" in 5` raises `TypeError`, which the loop does not catch. -/
def c6xChunk : Bytes := asciiBytes "data: 5\n"

/-- `json.loads` on the line remainder `5`. -/
def c6xJl : String → Option Json := fun s =>
  if s == "5" then some (Json.num 5) else none

/-- The event-stream upstream response carrying that chunk. -/
def c6xUpstream : UpstreamResponse :=
  { status := 200
    headers := [("content-type", "text/event-stream")]
    chunks := [c6xChunk] }

/-- An event-stream upstream response that ends without ever producing a
text fragment, refuting the only-if direction of C9. -/
def c9xUpstream : UpstreamResponse :=
  { status := 200
    headers := [("content-type", "text/event-stream")]
    chunks := [] }

/-- Inbound request for the header sanitization witness. -/
def c1req : InboundRequest :=
  { method := "POST"
    path := "v1/messages"
    headers := [("Host", "proxy:8082"), ("Content-Type", "application/json"),
                ("Transfer-Encoding", "chunked"), ("Accept", "application/json")]
    body := [] }

/-- Upstream response for the response-header witness (no content-type,
hence buffered). -/
def c3wUpstream : UpstreamResponse :=
  { status := 201
    headers := [("x-first", "1"), ("x-second", "2")]
    chunks := [[1, 2]] }

/-- Buffered upstream response for the dispatch witness: two chunks whose
concatenation is the relayed body. -/
def c4wUpstream : UpstreamResponse :=
  { status := 200
    headers := [("content-type", "application/json")]
    chunks := [[72], [105]] }

/-- A chunk none of whose data lines parses, for the amended-C6 witness. -/
def c6wChunk : Bytes := asciiBytes "data: notjson\n"

/-- Streaming upstream response for the amended-C9 witness: its only
chunk yields no text fragment. -/
def c9wUpstream : UpstreamResponse :=
  { status := 200
    headers := [("content-type", "text/event-stream")]
    chunks := [asciiBytes "data: notjson\n"] }

/-- Content of the last message in the preview witness: 200 times `A`. -/
def w8content : String := String.mk (List.replicate 200 'A')

/-- The five messages of the preview witness; the last has role `user`
and the 200-character content. -/
def w8msgs : List Json :=
  [Json.obj [("role", Json.str "system"), ("content", Json.str "be helpful")],
   Json.obj [("role", Json.str "user"), ("content", Json.str "hi")],
   Json.obj [("role", Json.str "assistant"), ("content", Json.str "hello")],
   Json.obj [("role", Json.str "assistant"), ("content", Json.arr [Json.obj [("type", Json.str "text")]])],
   Json.obj [("role", Json.str "user"), ("content", Json.str w8content)]]

/-- The parsed request body of the preview witness. -/
def w8fields : List (String × Json) :=
  [("model", Json.str "llama3"), ("messages", Json.arr w8msgs), ("stream", Json.bool true)]

/-- `json.loads` stand-in for the preview witness: the witness body
parses to `w8fields`. -/
def w8Jl : Bytes → Option Json := fun _ => some (Json.obj w8fields)

/-- Inbound request with an empty body, for the C10 witness. -/
def c10req : InboundRequest :=
  { method := "GET"
    path := "api/tags"
    headers := [("Host", "proxy:8082")]
    body := [] }

/- ---------------------------------------------------------------------
Helper lemmas.
--------------------------------------------------------------------- -/

theorem pyDictUpdate_notmem {d : List (String × String)} {k v : String}
    (h : ∀ kv ∈ d, kv.1 ≠ k) : pyDictUpdate d k v = d ++ [(k, v)] := by
  have hne : ¬ (d.any (fun kv => kv.1 == k) = true) := by
    intro hc
    obtain ⟨kv, hmem, hbeq⟩ := List.any_eq_true.mp hc
    exact h kv hmem (eq_of_beq hbeq)
  unfold pyDictUpdate
  rw [if_neg hne]

theorem dictFold_go (keep : String × String → Bool) :
    ∀ (l acc : List (String × String)),
      ((acc ++ l.filter keep).map Prod.fst).Nodup →
      List.foldl (fun d kv => if keep kv then pyDictUpdate d kv.1 kv.2 else d) acc l
        = acc ++ l.filter keep := by
  intro l
  induction l with
  | nil =>
    intro acc _
    simp
  | cons kv l ih =>
    intro acc h
    by_cases hk : keep kv = true
    · rw [List.filter_cons_of_pos hk] at h ⊢
      have hnotin : ∀ kv2 ∈ acc, kv2.1 ≠ kv.1 := by
        intro kv2 hmem heq
        have h2 : (acc.map Prod.fst ++ kv.1 :: (l.filter keep).map Prod.fst).Nodup := by
          simpa using h
        have hd := (List.nodup_append.mp h2).2.2
        have hmm : kv2.1 ∈ acc.map Prod.fst := List.mem_map_of_mem Prod.fst hmem
        rw [heq] at hmm
        exact hd hmm (List.mem_cons_self _ _)
      have hstep : (acc ++ [(kv.1, kv.2)]) ++ l.filter keep = acc ++ kv :: l.filter keep := by
        simp
      rw [List.foldl_cons, if_pos hk, pyDictUpdate_notmem hnotin]
      rw [← hstep] at h
      rw [ih (acc ++ [(kv.1, kv.2)]) h, hstep]
    · have hk2 : keep kv = false := by simpa using hk
      rw [List.filter_cons_of_neg (by simp [hk2])] at h ⊢
      rw [List.foldl_cons, if_neg hk]
      exact ih acc h

theorem dictFold_eq_filter (keep : String × String → Bool) (l : List (String × String))
    (h : ((l.filter keep).map Prod.fst).Nodup) :
    dictFold keep l = l.filter keep := by
  have hgo := dictFold_go keep l [] (by simpa using h)
  simpa [dictFold] using hgo

theorem pyDict_self (l : List (String × String)) (h : (l.map Prod.fst).Nodup) :
    pyDict l = l := by
  have hf : l.filter (fun _ => true) = l := by
    induction l with
    | nil => rfl
    | cons kv l ih => simp [ih]
  unfold pyDict
  rw [dictFold_eq_filter _ _ (by rw [hf]; exact h), hf]

theorem dropLenAppend {α : Type} : ∀ (l1 l2 : List α), (l1 ++ l2).drop l1.length = l2 := by
  intro l1 l2
  induction l1 with
  | nil => rfl
  | cons a l ih => simp [ih]

theorem relaysOf_append (a b : List Event) : relaysOf (a ++ b) = relaysOf a ++ relaysOf b := by
  induction a with
  | nil => rfl
  | cons e a ih => cases e <;> simp [relaysOf, ih]

theorem relaysOf_map_live (ws : List String) : relaysOf (ws.map Event.live) = [] := by
  induction ws with
  | nil => rfl
  | cons w ws ih => simp [relaysOf, ih]

theorem relaysOf_map_log (ls : List LogLine) : relaysOf (ls.map Event.log) = [] := by
  induction ls with
  | nil => rfl
  | cons l ls ih => simp [relaysOf, ih]

theorem chunkEvents_relays_none {jlS : String → Option Json} {decode : Bytes → String}
    {lb : Bool} {c : Bytes} {evs : List Event}
    (h : chunkEvents jlS decode lb c = (evs, none)) : relaysOf evs = [c] := by
  unfold chunkEvents at h
  cases lb with
  | false =>
    simp only [Bool.false_eq_true, if_false] at h
    injection h with h1 h2
    subst h1
    rfl
  | true =>
    simp only [if_true] at h
    cases hlw : linesWrites jlS (splitChar '\n' (pyStrip (decode c))) with
    | mk ws e2 =>
      rw [hlw] at h
      cases e2 with
      | some e =>
        dsimp at h
        injection h with h1 h2
        cases h2
      | none =>
        dsimp at h
        injection h with h1 h2
        subst h1
        rw [relaysOf_append, relaysOf_map_live]
        rfl

theorem chunksEvents_relays {jlS : String → Option Json} {decode : Bytes → String} {lb : Bool} :
    ∀ (cs : List Bytes) (evs : List Event),
      chunksEvents jlS decode lb cs = (evs, none) → relaysOf evs = cs := by
  intro cs
  induction cs with
  | nil =>
    intro evs h
    simp only [chunksEvents] at h
    injection h with h1 h2
    subst h1
    rfl
  | cons c cs ih =>
    intro evs h
    simp only [chunksEvents] at h
    cases hce : chunkEvents jlS decode lb c with
    | mk evs1 e1 =>
      rw [hce] at h
      cases e1 with
      | some e =>
        dsimp at h
        injection h with h1 h2
        cases h2
      | none =>
        dsimp at h
        cases hcs : chunksEvents jlS decode lb cs with
        | mk evs2 e2 =>
          rw [hcs] at h
          injection h with h1 h2
          subst h1
          subst h2
          rw [relaysOf_append, chunkEvents_relays_none hce, ih evs2 hcs]
          rfl

theorem streamAndLog_relays {jlS : String → Option Json} {decode : Bytes → String} {lb : Bool}
    {chunks : List Bytes} {evs : List Event}
    (h : streamAndLog jlS decode lb chunks = (evs, none)) : relaysOf evs = chunks := by
  unfold streamAndLog at h
  cases hce : chunksEvents jlS decode lb chunks with
  | mk evs1 e1 =>
    rw [hce] at h
    cases e1 with
    | some e =>
      dsimp at h
      injection h with h1 h2
      cases h2
    | none =>
      dsimp at h
      cases lb with
      | false =>
        simp only [Bool.false_eq_true, if_false] at h
        injection h with h1 h2
        subst h1
        exact chunksEvents_relays chunks evs1 hce
      | true =>
        simp only [if_true] at h
        injection h with h1 h2
        subst h1
        rw [relaysOf_append, chunksEvents_relays chunks evs1 hce]
        simp [relaysOf]

theorem linesWrites_allSkip (jlS : String → Option Json) :
    ∀ lines : List String,
      (∀ line ∈ lines, strStartsWith line "data: " = true → line ≠ "data: [DONE]" →
        jlS (strDrop line 6) = none) →
      linesWrites jlS lines = ([], none) := by
  intro lines
  induction lines with
  | nil => intro _; rfl
  | cons l ls ih =>
    intro h
    have hl : lineWrites jlS l = ([], none) := by
      unfold lineWrites
      by_cases hc : (strStartsWith l "data: " && !(l == "data: [DONE]")) = true
      · rw [if_pos hc]
        simp only [Bool.and_eq_true] at hc
        obtain ⟨h1, h2⟩ := hc
        have h3 : l ≠ "data: [DONE]" := by
          intro heq
          rw [heq] at h2
          simp at h2
        rw [h l (List.mem_cons_self l ls) h1 h3]
      · rw [if_neg hc]
    simp only [linesWrites, hl]
    rw [ih (fun x hx h1 h2 => h x (List.mem_cons_of_mem _ hx) h1 h2)]
    rfl

theorem msgsLoop_ok : ∀ ms : List Json, (∀ m ∈ ms, msgOk m = true) →
    msgsLoop ms = (ms.map specMessageLine, none) := by
  intro ms
  induction ms with
  | nil => intro _; rfl
  | cons m ms ih =>
    intro h
    have hm := h m (List.mem_cons_self m ms)
    have hrest := ih (fun x hx => h x (List.mem_cons_of_mem _ hx))
    cases m with
    | obj fs =>
      cases hcontent : lookupD fs "content" (Json.str "") with
      | str s =>
        simp [msgsLoop, pyGetD, hcontent, contentPreview, hrest, specMessageLine,
          jsonGetD, specContentPreview]
      | arr xs =>
        simp [msgsLoop, pyGetD, hcontent, contentPreview, hrest, specMessageLine,
          jsonGetD, specContentPreview]
      | obj fs2 =>
        simp [msgsLoop, pyGetD, hcontent, contentPreview, hrest, specMessageLine,
          jsonGetD, specContentPreview]
      | null => simp [msgOk, hcontent] at hm
      | bool b => simp [msgOk, hcontent] at hm
      | num n => simp [msgOk, hcontent] at hm
    | null => simp [msgOk] at hm
    | bool b => simp [msgOk] at hm
    | num n => simp [msgOk] at hm
    | str s => simp [msgOk] at hm
    | arr xs => simp [msgOk] at hm

/- ---------------------------------------------------------------------
Claim theorems.
--------------------------------------------------------------------- -/

/-- C1: for every inbound request, the header mapping sent upstream equals
the inbound header mapping with exactly those entries removed whose key
lowercases to `host` or `transfer-encoding`; every other header key/value
passes through unchanged (in order, with its value intact). The inbound
headers form a mapping, so their keys are distinct. -/
theorem c1_forward_headers (host : String) (req : InboundRequest)
    (hnd : (req.headers.map Prod.fst).Nodup) :
    (buildUpstreamRequest host req).headers = req.headers.filter keepHeader := by
  show forwardHeaders req.headers = req.headers.filter keepHeader
  unfold forwardHeaders
  apply dictFold_eq_filter
  have hsub : ((req.headers.filter keepHeader).map Prod.fst).Sublist (req.headers.map Prod.fst) :=
    (List.filter_sublist _).map Prod.fst
  exact List.Nodup.sublist hsub hnd

/-- Witness for C1 at a concrete request: `Host` and `Transfer-Encoding`
are dropped, the remaining headers pass through unchanged. -/
theorem c1_forward_headers_witness :
    (buildUpstreamRequest "http://ollama:11434" c1req).headers =
      [("Content-Type", "application/json"), ("Accept", "application/json")] :=
  (c1_forward_headers "http://ollama:11434" c1req (by decide)).trans (by decide)

/-- C2 (amended): with body logging enabled, a nonempty request body that
fails to parse as JSON, or parses to a non-object, never raises and emits
exactly one body-section log line, `BODY <N> bytes (not JSON)` with N the
byte length. (As stated, the claim fails: the empty body emits no line at
all, and a body parsing to an object with ill-typed fields can raise an
uncaught TypeError — see the counterexample.) -/
theorem c2_nonjson_body_fallback (jlB : Bytes → Option Json) (body : Bytes)
    (hb : body ≠ [])
    (h : ∀ j, jlB body = some j → j.isObj = false) :
    requestBodySection jlB true body =
      ([LogLine.mk DIM "BODY" (bodyFallbackMsg body.length)], none) := by
  have hbe : body.isEmpty = false := by
    cases body with
    | nil => exact absurd rfl hb
    | cons a l => rfl
  cases hj : jlB body with
  | none =>
    simp [requestBodySection, hbe, requestTry, hj, caughtByExceptClause]
  | some j =>
    have hobj := h j hj
    cases j with
    | obj fs => simp [Json.isObj] at hobj
    | null => simp [requestBodySection, hbe, requestTry, hj, pyGetD, caughtByExceptClause]
    | bool b => simp [requestBodySection, hbe, requestTry, hj, pyGetD, caughtByExceptClause]
    | num n => simp [requestBodySection, hbe, requestTry, hj, pyGetD, caughtByExceptClause]
    | str s => simp [requestBodySection, hbe, requestTry, hj, pyGetD, caughtByExceptClause]
    | arr xs => simp [requestBodySection, hbe, requestTry, hj, pyGetD, caughtByExceptClause]

/-- Witness for amended C2: a one-byte non-JSON body yields exactly the
BODY fallback line and no exception. -/
theorem c2_nonjson_body_fallback_witness :
    requestBodySection (fun _ => none) true [120] =
      ([LogLine.mk DIM "BODY" (bodyFallbackMsg 1)], none) :=
  c2_nonjson_body_fallback (fun _ => none) [120] (by decide) (fun j hj => nomatch hj)

/-- Counterexample to C2 as stated. First conjunct: on the valid JSON body
`{"messages": 5}` the observer logs MODEL and then raises an uncaught
TypeError (from `len(5)`), so it does not hold that no exception
propagates. Second conjunct: the empty body is not JSON, yet no BODY
fallback line (indeed no line at all) is emitted for it. -/
theorem c2_observer_raises_counterexample :
    requestBodySection c2xJl true c2xBody =
      ([LogLine.mk CYAN "MODEL" "?"], some PyExc.typeError) ∧
    requestBodySection (fun _ => none) true [] = ([], none) := by
  constructor
  · decide
  · decide

/-- C10: an inbound request with an empty body produces only the REQUEST
log line — no MODEL line and no BODY fallback — even when body logging is
enabled, and the empty body is still forwarded upstream. -/
theorem c10_empty_body (jlB : Bytes → Option Json) (lb : Bool) (host : String)
    (req : InboundRequest) (hb : req.body = []) :
    requestPhase jlB lb req.method req.path req.body =
      ([LogLine.mk CYAN "REQUEST" (requestLine req.method req.path)], none) ∧
    (buildUpstreamRequest host req).content = [] := by
  rw [hb]
  constructor
  · simp [requestPhase, requestBodySection]
  · show req.body = []
    exact hb

/-- Witness for C10 at a concrete GET request with empty body. -/
theorem c10_empty_body_witness :
    requestPhase (fun _ => none) true "GET" "api/tags" [] =
      ([LogLine.mk CYAN "REQUEST" (requestLine "GET" "api/tags")], none) ∧
    (buildUpstreamRequest "http://ollama:11434" c10req).content = [] :=
  c10_empty_body (fun _ => none) true "http://ollama:11434" c10req rfl

/-- C3: whenever the handler returns a response (no exception escaped),
the response headers handed back to the client are exactly the upstream
response header mapping, and the status code is the upstream status —
the proxy adds and removes nothing on the response path, in both the
streaming and the buffered branch. -/
theorem c3_response_headers_verbatim (jlS : String → Option Json) (jlB : Bytes → Option Json)
    (decode : Bytes → String) (lb : Bool) (u : UpstreamResponse)
    (hnd : (u.headers.map Prod.fst).Nodup)
    (he : (proxyRespond jlS jlB decode lb u).exc = none) :
    (proxyRespond jlS jlB decode lb u).sentHeaders = some u.headers ∧
    (proxyRespond jlS jlB decode lb u).sentStatus = some u.status := by
  cases hs : isStreaming u with
  | true =>
    constructor
    · simp [proxyRespond, hs, pyDict_self u.headers hnd]
    · simp [proxyRespond, hs]
  | false =>
    cases hbe : bufferedSection jlB lb (joinChunks u.chunks) with
    | mk ls e =>
      cases e with
      | some ex =>
        simp [proxyRespond, hs, hbe] at he
      | none =>
        constructor
        · simp [proxyRespond, hs, hbe, pyDict_self u.headers hnd]
        · simp [proxyRespond, hs, hbe]

/-- Witness for C3 at a concrete buffered upstream response. -/
theorem c3_response_headers_verbatim_witness :
    (proxyRespond (fun _ => none) (fun _ => none) asciiDecode false c3wUpstream).sentHeaders =
      some [("x-first", "1"), ("x-second", "2")] ∧
    (proxyRespond (fun _ => none) (fun _ => none) asciiDecode false c3wUpstream).sentStatus =
      some 201 :=
  c3_response_headers_verbatim (fun _ => none) (fun _ => none) asciiDecode false c3wUpstream
    (by decide) (by decide)

/-- C4: the response is treated as streaming exactly when the substring
`text/event-stream` occurs in the `content-type` response header (absent
header giving the empty string — `isStreaming` is that test on the
case-insensitive lookup). Streaming: the RESPONSE log marks `(streaming)`
and (absent an exception) the chunks are relayed one by one, unchanged.
Otherwise the whole body is read first — the RESPONSE log already carries
the full byte count — and (absent an exception) the client receives the
entire buffered body as a single relay. -/
theorem c4_streaming_dispatch (jlS : String → Option Json) (jlB : Bytes → Option Json)
    (decode : Bytes → String) (lb : Bool) (u : UpstreamResponse) :
    (isStreaming u = true →
      (proxyRespond jlS jlB decode lb u).events.head? =
        some (Event.log (LogLine.mk GREEN "RESPONSE" (respStreamingMsg u.status))) ∧
      ((proxyRespond jlS jlB decode lb u).exc = none →
        relaysOf (proxyRespond jlS jlB decode lb u).events = u.chunks)) ∧
    (isStreaming u = false →
      (proxyRespond jlS jlB decode lb u).events.head? =
        some (Event.log (LogLine.mk GREEN "RESPONSE"
          (respBufferedMsg u.status (joinChunks u.chunks).length))) ∧
      ((proxyRespond jlS jlB decode lb u).exc = none →
        relaysOf (proxyRespond jlS jlB decode lb u).events = [joinChunks u.chunks])) := by
  constructor
  · intro hs
    cases hse : streamAndLog jlS decode lb u.chunks with
    | mk evs e =>
      constructor
      · simp [proxyRespond, hs, hse]
      · intro he
        simp only [proxyRespond, hs, if_true, hse] at he ⊢
        simp only [relaysOf]
        cases e with
        | some ex => simp at he
        | none => exact streamAndLog_relays hse
  · intro hs
    cases hbe : bufferedSection jlB lb (joinChunks u.chunks) with
    | mk ls e =>
      cases e with
      | some ex =>
        constructor
        · simp [proxyRespond, hs, hbe]
        · intro he
          simp [proxyRespond, hs, hbe] at he
      | none =>
        constructor
        · simp [proxyRespond, hs, hbe]
        · intro he
          simp only [proxyRespond, hs, hbe] at he ⊢
          simp [relaysOf, relaysOf_append, relaysOf_map_log]

/-- Witness for C4 at a concrete buffered response with two upstream
chunks: the client receives their concatenation as one relay. -/
theorem c4_streaming_dispatch_witness :
    relaysOf (proxyRespond (fun _ => none) (fun _ => none) asciiDecode true c4wUpstream).events =
      [[72, 105]] :=
  (((c4_streaming_dispatch (fun _ => none) (fun _ => none) asciiDecode true c4wUpstream).2
    (by decide)).2 (by decide)).trans (by decide)

/-- C5: the streaming scenario. With body logging enabled and the upstream
emitting the two delta chunks and the DONE sentinel, the full event trace
is: the `RESPONSE 200 (streaming)` log first, each chunk relayed unchanged
and in order with the text fragments written to the live stream as they
arrive, the trailing newline, and the `DONE stream complete` log last.
In particular the live output stream receives exactly `Hello` followed by
one newline. -/
theorem c5_streaming_scenario :
    (proxyRespond c5jl (fun _ => none) asciiDecode true c5upstream).events =
      [Event.log (LogLine.mk GREEN "RESPONSE" (respStreamingMsg 200)),
       Event.live "Hel", Event.relay c5chunk1,
       Event.live "lo", Event.relay c5chunk2,
       Event.relay c5chunk3,
       Event.live "\n",
       Event.log (LogLine.mk GREEN "DONE" "stream complete")] ∧
    String.join (livesOf (proxyRespond c5jl (fun _ => none) asciiDecode true c5upstream).events) =
      "Hello\n" ∧
    relaysOf (proxyRespond c5jl (fun _ => none) asciiDecode true c5upstream).events =
      [c5chunk1, c5chunk2, c5chunk3] ∧
    (proxyRespond c5jl (fun _ => none) asciiDecode true c5upstream).exc = none := by
  refine ⟨by decide, by decide, by decide, by decide⟩

/-- C6 (amended): a line whose `data: ` payload fails to parse as JSON is
silently skipped — for a chunk all of whose data lines fail to parse,
the chunk iteration raises nothing, writes nothing, logs nothing, and
relays the chunk unchanged. (As stated, the claim fails for line contents
that parse to a non-dict — see the counterexample.) -/
theorem c6_parse_failure_skipped (jlS : String → Option Json) (decode : Bytes → String)
    (chunk : Bytes)
    (h : ∀ line ∈ splitChar '\n' (pyStrip (decode chunk)),
        strStartsWith line "data: " = true → line ≠ "data: [DONE]" →
        jlS (strDrop line 6) = none) :
    chunkEvents jlS decode true chunk = ([Event.relay chunk], none) := by
  unfold chunkEvents
  rw [if_pos rfl, linesWrites_allSkip jlS _ h]
  rfl

/-- Witness for amended C6: a chunk carrying a data line that is not JSON
is relayed unchanged with no other effect. -/
theorem c6_parse_failure_skipped_witness :
    chunkEvents (fun _ => none) asciiDecode true c6wChunk =
      ([Event.relay c6wChunk], none) :=
  c6_parse_failure_skipped (fun _ => none) asciiDecode c6wChunk (fun _ _ _ _ => rfl)

/-- Counterexample to C6 as stated: the chunk `data: 5\n` parses to the
number 5, on which `"delta" in data` raises TypeError; only
`json.JSONDecodeError` is caught, so the exception escapes the generator
and the chunk is never relayed to the client. -/
theorem c6_typeerror_counterexample :
    (proxyRespond c6xJl (fun _ => none) asciiDecode true c6xUpstream).exc =
      some PyExc.typeError ∧
    relaysOf (proxyRespond c6xJl (fun _ => none) asciiDecode true c6xUpstream).events = [] := by
  constructor
  · decide
  · decide

/-- C7: the buffered scenario. On the JSON body
`{"content":[{"type":"text","text":"Hi there"}]}` the log emits
`TEXT Hi there`, and the client receives exactly the upstream body bytes
with the upstream status code, with no exception. -/
theorem c7_buffered_scenario :
    Event.log (LogLine.mk GREEN "TEXT" "Hi there") ∈
      (proxyRespond (fun _ => none) c7jlB asciiDecode true c7upstream).events ∧
    relaysOf (proxyRespond (fun _ => none) c7jlB asciiDecode true c7upstream).events =
      [asciiBytes c7bodyStr] ∧
    (proxyRespond (fun _ => none) c7jlB asciiDecode true c7upstream).sentStatus = some 200 ∧
    (proxyRespond (fun _ => none) c7jlB asciiDecode true c7upstream).exc = none := by
  refine ⟨by decide, by decide, by decide, by decide⟩

/-- C8 (amended): with body logging enabled, for a nonempty body parsing
to an object whose `messages` field is a sequence, provided the last
min(3, count) entries are objects whose content (after the empty-string
default) is a string, a list or a dict, the observer emits
`MESSAGES <count> message(s)` and then exactly one preview line per entry
for the last min(3, count) entries in original order, labelled by each
entry role (default `?`), a string content truncated to its first 120
characters with newlines replaced by spaces, and a non-string content
rendered `[<N> content blocks]` with N its element count. (As stated —
for arbitrary sequence entries — the claim fails: a non-object entry
aborts the loop into the BODY fallback; see the counterexample.) -/
theorem c8_message_previews (jlB : Bytes → Option Json) (body : Bytes)
    (fs : List (String × Json)) (msgs : List Json)
    (hb : body ≠ [])
    (hj : jlB body = some (Json.obj fs))
    (hfind : fs.find? (fun kv => kv.1 == "messages") = some ("messages", Json.arr msgs))
    (hok : ∀ m ∈ msgs.drop (msgs.length - 3), msgOk m = true) :
    requestBodySection jlB true body =
      (LogLine.mk CYAN "MODEL" (lookupD fs "model" (Json.str "?")).pyStr
        :: LogLine.mk CYAN "MESSAGES" (messagesMsg msgs.length)
        :: ((msgs.drop (msgs.length - 3)).map specMessageLine
            ++ streamSection (Json.obj fs)),
       none) := by
  have hbe : body.isEmpty = false := by
    cases body with
    | nil => exact absurd rfl hb
    | cons a l => rfl
  have hms : messagesSection (Json.obj fs) =
      (LogLine.mk CYAN "MESSAGES" (messagesMsg msgs.length)
        :: (msgs.drop (msgs.length - 3)).map specMessageLine, none) := by
    simp only [messagesSection, objHasKey, hfind, Option.isSome_some, if_true,
      objIndexD, lookupD, pyLen, pyLast3, msgsLoop_ok _ hok]
  have htry : requestTry jlB body =
      (LogLine.mk CYAN "MODEL" (lookupD fs "model" (Json.str "?")).pyStr
        :: ((LogLine.mk CYAN "MESSAGES" (messagesMsg msgs.length)
              :: (msgs.drop (msgs.length - 3)).map specMessageLine)
            ++ streamSection (Json.obj fs)),
       none) := by
    simp only [requestTry, hj, pyGetD, hms]
  simp only [requestBodySection, hbe, Bool.not_false, Bool.and_true, if_true, htry,
    caughtByExceptClause, Bool.false_eq_true, if_false, List.cons_append]

/-- Witness for amended C8, the spec scenario: five messages, the last
with role `user` and a 200-character content; the log shows the MESSAGES
count and one preview per entry for the last three only, the long content
truncated to 120 characters. -/
theorem c8_message_previews_witness :
    requestBodySection w8Jl true [123] =
      (LogLine.mk CYAN "MODEL" "llama3"
        :: LogLine.mk CYAN "MESSAGES" (messagesMsg 5)
        :: [LogLine.mk DIM "assistant" "hello",
            LogLine.mk DIM "assistant" (contentBlocksMsg 1),
            LogLine.mk DIM "user" (String.mk (List.replicate 120 'A')),
            LogLine.mk YELLOW "STREAM" "enabled"],
       none) :=
  (c8_message_previews w8Jl [123] w8fields w8msgs (by decide) rfl rfl (by decide)).trans
    (by decide)

/-- Counterexample to C8 as stated: on `{"messages":[5]}` the `messages`
field is a sequence, but its (only, hence last) entry is not an object:
`msg.get` raises AttributeError, which the except clause converts into a
BODY fallback line — the predicted preview line (role default `?`, empty
content preview) never appears. -/
theorem c8_nonobject_entry_counterexample :
    (requestBodySection c8xJl true c8xBody).1 =
      [LogLine.mk CYAN "MODEL" "?",
       LogLine.mk CYAN "MESSAGES" (messagesMsg 1),
       LogLine.mk DIM "BODY" (bodyFallbackMsg 16)] ∧
    specMessageLine (Json.num 5) ∉ (requestBodySection c8xJl true c8xBody).1 := by
  constructor
  · decide
  · decide

/-- C9 (amended): with body logging enabled, once the upstream stream ends
without an uncaught exception, the trace always ends with a newline
written to the live output stream followed by the `DONE stream complete`
log line — whether or not any text fragment was written. (The iff of the
claim as stated fails in the only-if direction: the trailing `print()` is
unconditional — see the counterexample.) -/
theorem c9_trailing_newline (jlS : String → Option Json) (jlB : Bytes → Option Json)
    (decode : Bytes → String) (u : UpstreamResponse)
    (hs : isStreaming u = true)
    (he : (proxyRespond jlS jlB decode true u).exc = none) :
    (proxyRespond jlS jlB decode true u).events.drop
        ((proxyRespond jlS jlB decode true u).events.length - 2) =
      [Event.live "\n", Event.log (LogLine.mk GREEN "DONE" "stream complete")] := by
  cases hse : streamAndLog jlS decode true u.chunks with
  | mk evs e =>
    simp only [proxyRespond, hs, if_true, hse] at he ⊢
    subst he
    unfold streamAndLog at hse
    cases hce : chunksEvents jlS decode true u.chunks with
    | mk evs0 e0 =>
      rw [hce] at hse
      cases e0 with
      | some ex =>
        dsimp at hse
        injection hse with h1 h2
        cases h2
      | none =>
        dsimp at hse
        injection hse with h1 h2
        rw [← h1]
        show ((Event.log (LogLine.mk GREEN "RESPONSE" (respStreamingMsg u.status)) :: evs0)
            ++ [Event.live "\n", Event.log (LogLine.mk GREEN "DONE" "stream complete")]).drop
            (((Event.log (LogLine.mk GREEN "RESPONSE" (respStreamingMsg u.status)) :: evs0)
              ++ [Event.live "\n", Event.log (LogLine.mk GREEN "DONE" "stream complete")]).length - 2)
          = [Event.live "\n", Event.log (LogLine.mk GREEN "DONE" "stream complete")]
        have hlen : ((Event.log (LogLine.mk GREEN "RESPONSE" (respStreamingMsg u.status)) :: evs0)
              ++ [Event.live "\n", Event.log (LogLine.mk GREEN "DONE" "stream complete")]).length - 2
            = (Event.log (LogLine.mk GREEN "RESPONSE" (respStreamingMsg u.status)) :: evs0).length := by
          simp
        rw [hlen, dropLenAppend]

/-- Witness for amended C9: a stream whose single chunk yields no text
fragment still ends with the newline and the DONE line. -/
theorem c9_trailing_newline_witness :
    (proxyRespond (fun _ => none) (fun _ => none) asciiDecode true c9wUpstream).events.drop
        ((proxyRespond (fun _ => none) (fun _ => none) asciiDecode true c9wUpstream).events.length - 2) =
      [Event.live "\n", Event.log (LogLine.mk GREEN "DONE" "stream complete")] :=
  c9_trailing_newline (fun _ => none) (fun _ => none) asciiDecode c9wUpstream
    (by decide) (by decide)

/-- Counterexample to C9 as stated: a stream that ends with no chunks at
all — so no text fragment was ever written (the only live write in the
whole trace is the newline itself) — still gets the trailing newline on
the live output stream. -/
theorem c9_unconditional_newline_counterexample :
    (proxyRespond (fun _ => none) (fun _ => none) asciiDecode true c9xUpstream).events =
      [Event.log (LogLine.mk GREEN "RESPONSE" (respStreamingMsg 200)),
       Event.live "\n",
       Event.log (LogLine.mk GREEN "DONE" "stream complete")] ∧
    livesOf (proxyRespond (fun _ => none) (fun _ => none) asciiDecode true c9xUpstream).events =
      ["\n"] := by
  constructor
  · decide
  · decide
